import Mathlib

/-!
Shallow embedding of the Raksha backend (src/main.py, src/schemas.py):
a FastAPI facade over a MongoDB document store.  Documents are modelled
as insertion-ordered association lists from field names to BSON-like
values, collections as lists of documents, and each route handler as a
pure function over an optional store handle.  The store driver
(pymongo/MongoDB) and the `database.py` module are external to src/ and
are modelled from their documented semantics / the spec where needed.
-/

/-- BSON-like field values.  `vOid s` is a storage-internal ObjectId,
represented by its canonical public string form (24 lowercase hex
characters); `str()` of an ObjectId in Python returns exactly that
string.  Numbers are modelled as rationals (no claim depends on
floating-point behaviour).  Arrays of strings (`languages`, `forms`,
`strengths` in the seed and schema data) are `vStrList`; no claim
touches arrays of subdocuments, so those are not modelled. -/
inductive Value where
  | vStr : String → Value
  | vNum : Rat → Value
  | vBool : Bool → Value
  | vOid : String → Value
  | vStrList : List String → Value
  deriving DecidableEq, Repr

/-- A document: a Python dict, i.e. an insertion-ordered mapping from
field names to values (keys unique in every document we build). -/
abbrev Doc := List (String × Value)

/-- Dict lookup `doc[key]` / `doc.get(key)`. -/
def getField (d : Doc) (key : String) : Option Value :=
  match d with
  | [] => none
  | (k, v) :: rest => if k = key then some v else getField rest key

/-- Dict `doc.pop(key)`: remove the entry and return its value together
with the remaining document; `none` models the `KeyError` raised when
the key is absent. -/
def popField (d : Doc) (key : String) : Option (Value × Doc) :=
  match d with
  | [] => none
  | (k, v) :: rest =>
      if k = key then some (v, rest)
      else (popField rest key).map (fun p => (p.1, (k, v) :: p.2))

/-- Dict assignment `doc[key] = v`: update in place when the key exists,
otherwise append a new entry at the end (Python dict insertion order). -/
def setField (d : Doc) (key : String) (v : Value) : Doc :=
  match d with
  | [] => [(key, v)]
  | (k, w) :: rest =>
      if k = key then (key, v) :: rest
      else (k, w) :: setField rest key v

/-- Python `str()` applied to a stored field value; only the ObjectId
case is ever exercised by the code (`str(doc.pop("_id"))`). -/
def vToStr : Value → String
  | .vStr s => s
  | .vNum q => toString q
  | .vBool b => toString b
  | .vOid s => s
  | .vStrList _ => ""

/-- Body of `to_public` on a dict input (src/main.py:27-31):
`if not doc: return doc; doc["id"] = str(doc.pop("_id")); return doc`.
An empty dict is falsy and returned unchanged; otherwise `_id` is
popped (raising `KeyError`, modelled as `.error`, when absent) and its
string form is stored under `id`. -/
def to_publicD (d : Doc) : Except String Doc :=
  if d.isEmpty then .ok d
  else
    match popField d "_id" with
    | none => .error "KeyError: _id"
    | some (v, rest) => .ok (setField rest "id" (.vStr (vToStr v)))

/-- `to_public` (src/main.py:27-31) on a possibly-absent (`None`) input:
`None` is falsy and returned unchanged; a dict goes through
`to_publicD`. -/
def to_public (doc : Option Doc) : Except String (Option Doc) :=
  match doc with
  | none => .ok none
  | some d => (to_publicD d).map some

/-!
Regex model.  The handlers build MongoDB filters of the form
`name: ($regex q, $options i)`; MongoDB evaluates the pattern with a
PCRE-compatible engine, unanchored (the pattern may match anywhere in
the field value).  We model the fragment of that engine the claims
exercise: literal characters, the metacharacter `.` (matches any one
character), and backslash escapes (a backslash makes the next character
literal).  Matching is case-insensitive throughout, since the code
always passes option `i`.
-/

/-- One parsed pattern atom of the modelled regex fragment. -/
inductive Atom where
  | dot : Atom
  | lit : Char → Atom
  deriving DecidableEq, Repr

/-- Parse a pattern string of the modelled fragment into atoms:
a backslash escapes the following character, `.` is the any-character
metacharacter, everything else is literal. -/
def parseAtoms : List Char → List Atom
  | [] => []
  | '\\' :: c :: rest => .lit c :: parseAtoms rest
  | '\\' :: [] => []
  | c :: rest => if c = '.' then .dot :: parseAtoms rest else .lit c :: parseAtoms rest

/-- Does one atom match one character, case-insensitively? -/
def atomMatch (a : Atom) (c : Char) : Bool :=
  match a with
  | .dot => true
  | .lit l => l.toLower = c.toLower

/-- Do the atoms match a prefix of the character list? -/
def atomsHere : List Atom → List Char → Bool
  | [], _ => true
  | _ :: _, [] => false
  | a :: as, c :: cs => atomMatch a c && atomsHere as cs

/-- Does the atom list match starting at some position of the character
list (unanchored search)? -/
def atomsFind (as : List Atom) : List Char → Bool
  | [] => atomsHere as []
  | c :: cs => atomsHere as (c :: cs) || atomsFind as cs

/-- Case-insensitive unanchored regex match of the modelled fragment:
the semantics MongoDB gives `field: ($regex pat, $options i)` on a
string field, restricted to patterns made of literals, `.` and
backslash escapes. -/
def regexMatchI (pat s : String) : Bool :=
  atomsFind (parseAtoms pat.data) s.data

/-- Escape one character the way Python `re.escape` does on the
characters relevant here: ASCII alphanumerics and underscore pass
through, everything else gets a backslash. -/
def escapeChar (c : Char) : List Char :=
  if c.isAlphanum || c = '_' then [c] else ['\\', c]

/-- Python `re.escape`: the sanitisation step the spec requires before
a free-text term is used as a pattern. -/
def escapeRegex (s : String) : String :=
  ⟨s.data.foldr (fun c acc => escapeChar c ++ acc) []⟩

/-- Does `pat` occur in `s` as a literal character sequence, compared
case-insensitively, starting at the head of `s`? -/
def litHere : List Char → List Char → Bool
  | [], _ => true
  | _ :: _, [] => false
  | p :: ps, c :: cs => (p.toLower = c.toLower : Bool) && litHere ps cs

/-- Does `pat` occur somewhere in `s` as a literal character sequence,
compared case-insensitively? -/
def litFind (ps : List Char) : List Char → Bool
  | [] => litHere ps []
  | c :: cs => litHere ps (c :: cs) || litFind ps cs

/-- Literal case-insensitive substring occurrence: the matching
semantics the claim says every free-text `q` is limited to. -/
def isSubstrCI (pat s : String) : Bool :=
  litFind pat.data s.data

/-!
MongoDB filter expressions and their matching semantics, restricted to
the shapes the handlers build: per-field conditions that are either an
exact-equality constraint (`field: value`) or a case-insensitive regex
(`field: ($regex pat, $options i)`); a filter is a conjunction of its
field conditions, the empty filter matching every document.
-/

/-- A per-field condition of a built filter. -/
inductive Cond where
  | eqv : Value → Cond
  | regexI : String → Cond
  deriving DecidableEq, Repr

/-- A filter expression: the dict `filt` the handlers build. -/
abbrev Filt := List (String × Cond)

/-- Does a document satisfy one field condition?  Equality requires the
field to be present with exactly that value; a regex condition requires
a string field matched by the pattern.  A missing field matches
neither (no filter built by this code uses null). -/
def matchesCond (d : Doc) (field : String) (c : Cond) : Bool :=
  match getField d field, c with
  | some v, .eqv w => v = w
  | some (.vStr s), .regexI pat => regexMatchI pat s
  | some _, .regexI _ => false
  | none, _ => false

/-- Does a document satisfy every condition of a filter? -/
def matchesFilter (filt : Filt) (d : Doc) : Bool :=
  filt.all (fun p => matchesCond d p.1 p.2)

/-- `collection.count_documents(filt)`: the number of matching
documents, with no pagination applied. -/
def countDocs (coll : List Doc) (filt : Filt) : Nat :=
  (coll.filter (matchesFilter filt)).length

/-- `collection.find(filt).skip(skip).limit(limit)`, drained to a list.
Modelled from the documented pymongo/MongoDB cursor semantics (the
driver is an external collaborator): matches are returned in natural
(insertion) order; a negative skip raises `ValueError` in the driver
(modelled as `.error`); `skip` matches are dropped; `limit 0` means no
limit, and a negative limit behaves like its absolute value. -/
def mongoPage (coll : List Doc) (filt : Filt) (skp lim : Int) :
    Except String (List Doc) :=
  if skp < 0 then .error "ValueError: skip must be an instance of int or 0 or more"
  else
    let ms := (coll.filter (matchesFilter filt)).drop skp.toNat
    .ok (if lim = 0 then ms else ms.take lim.natAbs)

/-- `collection.find_one(filt)`: the first matching document, if any. -/
def findOne (coll : List Doc) (filt : Filt) : Option Doc :=
  coll.find? (matchesFilter filt)

/-- The five collections of the store (`db.medicine`, `db.doctor`,
`db.prescription`, `db.consultation`, `db.order`). -/
structure Store where
  medicine : List Doc
  doctor : List Doc
  prescription : List Doc
  consultation : List Doc
  order : List Doc

/-- Collection names, for the generic operations. -/
inductive Coll where
  | medicine | doctor | prescription | consultation | order
  deriving DecidableEq, Repr

/-- Read one collection of the store. -/
def getColl (s : Store) : Coll → List Doc
  | .medicine => s.medicine
  | .doctor => s.doctor
  | .prescription => s.prescription
  | .consultation => s.consultation
  | .order => s.order

/-- Replace one collection of the store. -/
def setColl (s : Store) (c : Coll) (l : List Doc) : Store :=
  match c with
  | .medicine => { s with medicine := l }
  | .doctor => { s with doctor := l }
  | .prescription => { s with prescription := l }
  | .consultation => { s with consultation := l }
  | .order => { s with order := l }

/-- Is this character an ASCII hexadecimal digit? -/
def isHexChar (c : Char) : Bool :=
  c.isDigit || ('a' ≤ c && c ≤ 'f') || ('A' ≤ c && c ≤ 'F')

/-- Lowercase a string character by character (Python `str.lower` on
the ASCII strings involved here). -/
def strLower (s : String) : String :=
  ⟨s.data.map Char.toLower⟩

/-- `bson.ObjectId(id)` on a string argument: accepted exactly when the
string is 24 hexadecimal characters, yielding the ObjectId whose
canonical (lowercase) form it denotes; any other string raises
`bson.errors.InvalidId`, modelled as `none`.  Modelled from the bson
driver, an external collaborator. -/
def parseOid (s : String) : Option String :=
  if s.length = 24 && s.data.all isHexChar then some (strLower s) else none

/-- An HTTP error response: `HTTPException(status, msg)` raised by a
handler, or the transport's 500 response for an exception the handler
does not catch (FastAPI/Starlette return HTTP 500 Internal Server
Error for any unhandled exception). -/
structure HErr where
  status : Nat
  msg : String
  deriving DecidableEq, Repr

/-- The `(total, items)` body every list endpoint returns. -/
structure Paginated where
  total : Nat
  items : List Doc
  deriving DecidableEq, Repr

/-- `(to_public(x) for x in cursor)` as a list comprehension: normalize
the page left to right, the first `KeyError` propagating. -/
def mapToPublic : List Doc → Except String (List Doc)
  | [] => .ok []
  | d :: rest =>
      match to_publicD d with
      | .error e => .error e
      | .ok d2 =>
          match mapToPublic rest with
          | .error e => .error e
          | .ok r => .ok (d2 :: r)

/-- Filter built by `list_medicines` (src/main.py:77-81): a truthy `q`
adds a case-insensitive regex condition on `name` with the pattern
taken verbatim from `q` (no escaping appears in the source); a truthy
`category` adds an exact-equality condition.  `None` and the empty
string are falsy and contribute nothing. -/
def medFilter (q category : Option String) : Filt :=
  (match q with
   | some s => if s = "" then [] else [("name", Cond.regexI s)]
   | none => []) ++
  (match category with
   | some s => if s = "" then [] else [("category", Cond.eqv (.vStr s))]
   | none => [])

/-- Filter built by `list_doctors` (src/main.py:105-109), same shape as
`medFilter` with `specialty` as the categorical field. -/
def docFilter (q specialty : Option String) : Filt :=
  (match q with
   | some s => if s = "" then [] else [("name", Cond.regexI s)]
   | none => []) ++
  (match specialty with
   | some s => if s = "" then [] else [("specialty", Cond.eqv (.vStr s))]
   | none => [])

/-- Filter built by `list_prescriptions` and `list_orders`
(src/main.py:135 and 179): the required `user_id` is applied
unconditionally as an exact-equality constraint, empty string
included. -/
def userIdFilter (user_id : String) : Filt :=
  [("user_id", Cond.eqv (.vStr user_id))]

/-- Filter built by `list_consultations` (src/main.py:155-159): truthy
optional `user_id` and `doctor_id` add exact-equality constraints. -/
def consultFilter (user_id doctor_id : Option String) : Filt :=
  (match user_id with
   | some s => if s = "" then [] else [("user_id", Cond.eqv (.vStr s))]
   | none => []) ++
  (match doctor_id with
   | some s => if s = "" then [] else [("doctor_id", Cond.eqv (.vStr s))]
   | none => [])

/-- `GET /api/medicines` (src/main.py:75-87).  The global handle `db`
is modelled from the spec as `Option Store`: `database.py` is not under
src/, and the spec distinguishes only a configured handle from an
absent one (`if not db` / `if db` in the handlers).  The total is
computed with `count_documents` when `db` is truthy, else 0; the page
is fetched and normalized only when `db` is truthy.  A driver
exception (negative skip) or a `to_public` `KeyError` is uncaught,
surfacing as HTTP 500. -/
def list_medicines (db : Option Store) (q category : Option String)
    (lim skp : Int) : Except HErr Paginated :=
  let filt := medFilter q category
  let total := match db with
    | some s => countDocs s.medicine filt
    | none => 0
  match db with
  | none => .ok ⟨total, []⟩
  | some s =>
      match mongoPage s.medicine filt skp lim with
      | .error e => .error ⟨500, e⟩
      | .ok page =>
          match mapToPublic page with
          | .error e => .error ⟨500, e⟩
          | .ok items => .ok ⟨total, items⟩

/-- `GET /api/doctors` (src/main.py:103-115), same shape as
`list_medicines` over the doctor collection. -/
def list_doctors (db : Option Store) (q specialty : Option String)
    (lim skp : Int) : Except HErr Paginated :=
  let filt := docFilter q specialty
  let total := match db with
    | some s => countDocs s.doctor filt
    | none => 0
  match db with
  | none => .ok ⟨total, []⟩
  | some s =>
      match mongoPage s.doctor filt skp lim with
      | .error e => .error ⟨500, e⟩
      | .ok page =>
          match mapToPublic page with
          | .error e => .error ⟨500, e⟩
          | .ok items => .ok ⟨total, items⟩

/-- `GET /api/prescriptions` (src/main.py:131-139): with `db` falsy it
returns `(0, [])` at once; otherwise the required `user_id` filter is
applied. -/
def list_prescriptions (db : Option Store) (user_id : String)
    (lim skp : Int) : Except HErr Paginated :=
  match db with
  | none => .ok ⟨0, []⟩
  | some s =>
      let filt := userIdFilter user_id
      let total := countDocs s.prescription filt
      match mongoPage s.prescription filt skp lim with
      | .error e => .error ⟨500, e⟩
      | .ok page =>
          match mapToPublic page with
          | .error e => .error ⟨500, e⟩
          | .ok items => .ok ⟨total, items⟩

/-- `GET /api/consultations` (src/main.py:151-163). -/
def list_consultations (db : Option Store) (user_id doctor_id : Option String)
    (lim skp : Int) : Except HErr Paginated :=
  match db with
  | none => .ok ⟨0, []⟩
  | some s =>
      let filt := consultFilter user_id doctor_id
      let total := countDocs s.consultation filt
      match mongoPage s.consultation filt skp lim with
      | .error e => .error ⟨500, e⟩
      | .ok page =>
          match mapToPublic page with
          | .error e => .error ⟨500, e⟩
          | .ok items => .ok ⟨total, items⟩

/-- `GET /api/orders` (src/main.py:175-183). -/
def list_orders (db : Option Store) (user_id : String)
    (lim skp : Int) : Except HErr Paginated :=
  match db with
  | none => .ok ⟨0, []⟩
  | some s =>
      let filt := userIdFilter user_id
      let total := countDocs s.order filt
      match mongoPage s.order filt skp lim with
      | .error e => .error ⟨500, e⟩
      | .ok page =>
          match mapToPublic page with
          | .error e => .error ⟨500, e⟩
          | .ok items => .ok ⟨total, items⟩

/-- Shared body of the get-by-id handlers (src/main.py:90-97 and
118-125), parameterized by the collection and the not-found message.
The second component counts the store queries the call performed.
With `db` falsy the handler raises `HTTPException(500)`.  Then
`ObjectId(id)` runs *before* any store access: on an invalid encoding
it raises `bson.errors.InvalidId`, which the handler does not catch,
so the transport surfaces HTTP 500 and the store is never queried.
Otherwise `find_one` runs (one query); a missing (or falsy) result
raises `HTTPException(404)`, and a found document is normalized with
`to_public`. -/
def get_by_id (db : Option Store) (c : Coll) (notFoundMsg : String)
    (id : String) : Except HErr Doc × Nat :=
  match db with
  | none => (.error ⟨500, "Database not configured"⟩, 0)
  | some s =>
      match parseOid id with
      | none => (.error ⟨500, "bson.errors.InvalidId"⟩, 0)
      | some oid =>
          match findOne (getColl s c) [("_id", Cond.eqv (.vOid oid))] with
          | none => (.error ⟨404, notFoundMsg⟩, 1)
          | some doc =>
              if doc.isEmpty then (.error ⟨404, notFoundMsg⟩, 1)
              else
                match to_publicD doc with
                | .error e => (.error ⟨500, e⟩, 1)
                | .ok d => (.ok d, 1)

/-- `GET /api/medicines/(id)` (src/main.py:90-97). -/
def get_medicine (db : Option Store) (id : String) : Except HErr Doc × Nat :=
  get_by_id db .medicine "Medicine not found" id

/-- `GET /api/doctors/(id)` (src/main.py:118-125). -/
def get_doctor (db : Option Store) (id : String) : Except HErr Doc × Nat :=
  get_by_id db .doctor "Doctor not found" id

/-- Modelled from the spec: `database.create_document` lives in
`database.py`, which is not under src/.  Per spec §4.4 and the note in
src/schemas.py, it inserts the payload as a new document into the
named collection, stamping creation/update timestamps, with the store
assigning a fresh internal identifier, and returns the public (string)
form of that identifier.  The fresh ObjectId and the timestamp value
are passed explicitly (they are server-assigned, nondeterministic
inputs). -/
def create_document (s : Store) (c : Coll) (payload : Doc)
    (freshOid : String) (now : Value) : String × Store :=
  let d : Doc := ("_id", Value.vOid freshOid) :: (payload ++ [("created_at", now), ("updated_at", now)])
  (freshOid, setColl s c (getColl s c ++ [d]))

/-- `POST /api/prescriptions` (src/main.py:142-145): inserts via
`create_document` and returns the new id.  Modelled from the spec for
the unconfigured-store case: writes fail with a configuration error
(spec §4.4, §7). -/
def create_prescription (db : Option Store) (payload : Doc)
    (freshOid : String) (now : Value) : Except HErr (String × Store) :=
  match db with
  | none => .error ⟨500, "Database not configured"⟩
  | some s => .ok (create_document s .prescription payload freshOid now)

/-- `POST /api/consultations` (src/main.py:166-169). -/
def create_consultation (db : Option Store) (payload : Doc)
    (freshOid : String) (now : Value) : Except HErr (String × Store) :=
  match db with
  | none => .error ⟨500, "Database not configured"⟩
  | some s => .ok (create_document s .consultation payload freshOid now)

/-- `POST /api/orders` (src/main.py:186-189). -/
def create_order (db : Option Store) (payload : Doc)
    (freshOid : String) (now : Value) : Except HErr (String × Store) :=
  match db with
  | none => .error ⟨500, "Database not configured"⟩
  | some s => .ok (create_document s .order payload freshOid now)

/-- The two medicine documents `seed_basic` passes to `insert_many`
(src/main.py:201-204). -/
def seedMedicines : List Doc :=
  [[("name", .vStr "Paracetamol"), ("brand", .vStr "Acme Pharma"),
    ("category", .vStr "Pain Relief"), ("price", .vNum (299/100)),
    ("stock", .vNum 120), ("requires_rx", .vBool false)],
   [("name", .vStr "Amoxicillin"), ("brand", .vStr "Acme Pharma"),
    ("category", .vStr "Antibiotics"), ("price", .vNum (549/100)),
    ("stock", .vNum 80), ("requires_rx", .vBool true)]]

/-- The two doctor documents `seed_basic` passes to `insert_many`
(src/main.py:205-209). -/
def seedDoctors : List Doc :=
  [[("name", .vStr "Dr. A. Mehta"), ("specialty", .vStr "Cardiologist"),
    ("experience_years", .vNum 12), ("rating", .vNum (48/10)),
    ("fee", .vNum 25), ("languages", .vStrList ["en", "hi"])],
   [("name", .vStr "Dr. S. Rao"), ("specialty", .vStr "Dermatologist"),
    ("experience_years", .vNum 8), ("rating", .vNum (46/10)),
    ("fee", .vNum 20), ("languages", .vStrList ["en"])]]

/-- `POST /api/seed` (src/main.py:195-210): with `db` falsy it raises
`HTTPException(500)`; otherwise it inserts the two demo medicines when
`count_documents` on the medicine collection with the empty filter is
zero, then likewise the two demo doctors.  The store-assigned `_id` on
each inserted document plays no role in any claim here and is omitted
from the seeded documents. -/
def seed_basic (db : Option Store) : Except HErr (Store × String) :=
  match db with
  | none => .error ⟨500, "Database not configured"⟩
  | some s =>
      let s1 := if countDocs s.medicine [] = 0
        then setColl s .medicine (s.medicine ++ seedMedicines) else s
      let s2 := if countDocs s1.doctor [] = 0
        then setColl s1 .doctor (s1.doctor ++ seedDoctors) else s1
      .ok (s2, "Seeded demo data (if collections were empty)")

/-- A canonical ObjectId string used in concrete witnesses. -/
def oid1 : String := "507f1f77bcf86cd799439011"

/-- A second canonical ObjectId string. -/
def oid2 : String := "507f1f77bcf86cd799439012"

/-- A concrete store with one medicine, used in witnesses and
counterexamples. -/
def oneMedStore : Store :=
  { medicine := [[("_id", .vOid oid1), ("name", .vStr "Paracetamol"),
                  ("category", .vStr "Pain Relief")]],
    doctor := [], prescription := [], consultation := [], order := [] }

/-- A concrete store whose prescription and order collections each hold
one document with `user_id = "u1"` and one with `user_id = ""`. -/
def twoUserStore : Store :=
  { medicine := [], doctor := [],
    prescription := [[("_id", .vOid oid1), ("user_id", .vStr "u1")],
                     [("_id", .vOid oid2), ("user_id", .vStr "")]],
    consultation := [],
    order := [[("_id", .vOid oid1), ("user_id", .vStr "u1")],
              [("_id", .vOid oid2), ("user_id", .vStr "")]] }

/-!
Helper lemmas about the embedded operations.
-/

/-- The empty filter matches every document. -/
theorem matchesFilter_nil (d : Doc) : matchesFilter [] d = true := rfl

/-- Counting with the empty filter gives the collection size. -/
theorem countDocs_nil (coll : List Doc) : countDocs coll [] = coll.length := by
  simp [countDocs, matchesFilter]

/-- Normalization of a page preserves its length. -/
theorem mapToPublic_length :
    ∀ (l out : List Doc), mapToPublic l = .ok out → out.length = l.length := by
  intro l
  induction l with
  | nil => intro out h; simp [mapToPublic] at h; simp [← h]
  | cons d rest ih =>
      intro out h
      simp only [mapToPublic] at h
      cases h1 : to_publicD d with
      | error e => rw [h1] at h; exact absurd h (by simp)
      | ok d2 =>
          rw [h1] at h
          cases h2 : mapToPublic rest with
          | error e => rw [h2] at h; exact absurd h (by simp)
          | ok r =>
              rw [h2] at h
              cases h
              simp [ih r h2]

/-- Every document of a normalized page comes from one of the page. -/
theorem mapToPublic_mem :
    ∀ (l out : List Doc), mapToPublic l = .ok out →
      ∀ y ∈ out, ∃ x ∈ l, to_publicD x = .ok y := by
  intro l
  induction l with
  | nil =>
      intro out h
      simp [mapToPublic] at h
      subst h
      intro y hy
      simp at hy
  | cons d rest ih =>
      intro out h y hy
      simp only [mapToPublic] at h
      cases h1 : to_publicD d with
      | error e => rw [h1] at h; exact absurd h (by simp)
      | ok d2 =>
          rw [h1] at h
          cases h2 : mapToPublic rest with
          | error e => rw [h2] at h; exact absurd h (by simp)
          | ok r =>
              rw [h2] at h
              cases h
              rcases List.mem_cons.1 hy with hy | hy
              · exact ⟨d, List.mem_cons_self .., hy ▸ h1⟩
              · obtain ⟨x, hx, hx2⟩ := ih r h2 y hy
                exact ⟨x, List.mem_cons_of_mem _ hx, hx2⟩

/-- A successful page is bounded by the unpaginated match count, and by
the limit whenever the limit is positive. -/
theorem mongoPage_bounds (coll : List Doc) (filt : Filt) (skp lim : Int)
    (page : List Doc) (h : mongoPage coll filt skp lim = .ok page) :
    page.length ≤ countDocs coll filt ∧ (1 ≤ lim → (page.length : Int) ≤ lim) := by
  simp only [mongoPage] at h
  by_cases hs : skp < 0
  · simp [hs] at h
  · simp only [hs, if_false] at h
    cases h
    have h1 : ((coll.filter (matchesFilter filt)).drop skp.toNat).length
        ≤ countDocs coll filt := by
      have := List.length_drop skp.toNat (coll.filter (matchesFilter filt))
      simp only [countDocs]
      omega
    refine ⟨?_, ?_⟩
    · by_cases hl : lim = 0
      · simpa [hl] using h1
      · have h2 : (((coll.filter (matchesFilter filt)).drop skp.toNat).take lim.natAbs).length
            ≤ ((coll.filter (matchesFilter filt)).drop skp.toNat).length := by
          have := List.length_take lim.natAbs ((coll.filter (matchesFilter filt)).drop skp.toNat)
          omega
        simp only [hl, if_false]
        omega
    · intro hlim
      have hne : lim ≠ 0 := by omega
      have h2 : (((coll.filter (matchesFilter filt)).drop skp.toNat).take lim.natAbs).length
          ≤ lim.natAbs := by
        have := List.length_take lim.natAbs ((coll.filter (matchesFilter filt)).drop skp.toNat)
        omega
      have h3 : ((lim.natAbs : Int)) = lim := Int.natAbs_of_nonneg (by omega)
      simp only [hne, if_false]
      omega

/-- Every document of a successful page matches the filter. -/
theorem mongoPage_matches (coll : List Doc) (filt : Filt) (skp lim : Int)
    (page : List Doc) (h : mongoPage coll filt skp lim = .ok page) :
    ∀ x ∈ page, matchesFilter filt x = true := by
  simp only [mongoPage] at h
  by_cases hs : skp < 0
  · simp [hs] at h
  · simp only [hs, if_false] at h
    cases h
    intro x hx
    have hx2 : x ∈ coll.filter (matchesFilter filt) := by
      by_cases hl : lim = 0
      · simp only [hl, if_true] at hx
        exact List.drop_subset _ _ hx
      · simp only [hl, if_false] at hx
        exact List.drop_subset _ _ (List.take_subset _ _ hx)
    exact List.of_mem_filter hx2

/-- Lookup skips over a list that lacks the key. -/
theorem getField_append_none (a b : Doc) (k : String) (h : getField a k = none) :
    getField (a ++ b) k = getField b k := by
  induction a with
  | nil => rfl
  | cons p rest ih =>
      by_cases hk : p.1 = k
      · simp [getField, hk] at h
      · simp only [List.cons_append, getField, hk, if_false] at h ⊢
        exact ih h

/-- Assigning an absent key appends the entry at the end. -/
theorem setField_of_getField_none (d : Doc) (k : String) (v : Value)
    (h : getField d k = none) : setField d k v = d ++ [(k, v)] := by
  induction d with
  | nil => rfl
  | cons p rest ih =>
      simp only [getField] at h
      by_cases hk : p.1 = k
      · simp [hk] at h
      · simp only [setField, hk, if_false] at *
        rw [ih h]
        rfl

/-- Popping an absent key raises `KeyError`. -/
theorem popField_eq_none (d : Doc) (k : String) (h : getField d k = none) :
    popField d k = none := by
  induction d with
  | nil => rfl
  | cons p rest ih =>
      simp only [getField] at h
      by_cases hk : p.1 = k
      · simp [hk] at h
      · simp only [popField, hk, if_false] at *
        rw [ih h]
        rfl

/-- Popping one key leaves the lookup of any other key unchanged. -/
theorem getField_popField_ne (d : Doc) (key k : String) (v : Value) (rest : Doc)
    (h : popField d key = some (v, rest)) (hk : k ≠ key) :
    getField rest k = getField d k := by
  induction d generalizing v rest with
  | nil => simp [popField] at h
  | cons p tail ih =>
      simp only [popField] at h
      by_cases hp : p.1 = key
      · simp only [hp, if_true] at h
        cases h
        have hpk : ¬ p.1 = k := by rw [hp]; exact fun he => hk he.symm
        simp [getField, hpk]
      · simp only [hp, if_false] at h
        cases h2 : popField tail key with
        | none => rw [h2] at h; simp at h
        | some pr =>
            obtain ⟨w, r⟩ := pr
            rw [h2] at h
            simp only [Option.map_some'] at h
            have h3 : v = w ∧ rest = p :: r := by
              have h4 := Option.some.inj h
              exact ⟨(congrArg Prod.fst h4).symm, (congrArg Prod.snd h4).symm⟩
            obtain ⟨rfl, rfl⟩ := h3
            simp only [getField]
            by_cases hpk : p.1 = k
            · simp [hpk]
            · simp only [hpk, if_false]
              exact ih v r h2

/-- Assigning one key leaves the lookup of any other key unchanged. -/
theorem getField_setField_ne (d : Doc) (key k : String) (v : Value) (hk : k ≠ key) :
    getField (setField d key v) k = getField d k := by
  induction d with
  | nil => simp [setField, getField, Ne.symm hk]
  | cons p rest ih =>
      simp only [setField]
      by_cases hp : p.1 = key
      · simp [getField, hp, Ne.symm hk]
      · simp only [hp, if_false, getField]
        by_cases hpk : p.1 = k
        · simp [hpk]
        · simp [hpk, ih]

/-- Reading back the collection just written. -/
theorem getColl_setColl (s : Store) (c : Coll) (l : List Doc) :
    getColl (setColl s c l) c = l := by
  cases c <;> rfl

/-- `find?` over an append finds the sole match at the end. -/
theorem find?_append_of_all_false (p : Doc → Bool) (l : List Doc) (d : Doc)
    (h : ∀ x ∈ l, p x = false) (hd : p d = true) :
    (l ++ [d]).find? p = some d := by
  induction l with
  | nil => simp [List.find?, hd]
  | cons a rest ih =>
      rw [List.cons_append]
      rw [List.find?_cons_of_neg _ (by simp [h a (List.mem_cons_self ..)])]
      exact ih (fun x hx => h x (List.mem_cons_of_mem _ hx))

/-- A concrete store whose only medicine is named "abc", used to
exhibit regex-metacharacter injection through `q`. -/
def abcStore : Store :=
  { medicine := [[("_id", .vOid oid1), ("name", .vStr "abc")]],
    doctor := [], prescription := [], consultation := [], order := [] }

/-- C8: `to_public` never fails on an empty or absent document: for an
absent (`None`) input and for an empty mapping it returns the input
unchanged rather than raising; the `KeyError` branch is not taken. -/
theorem c8_to_public_safe_on_falsy :
    to_public none = .ok none ∧ to_public (some []) = .ok (some []) :=
  ⟨rfl, rfl⟩

/-- C4: with the store handle unconfigured (`db` absent), every list
endpoint returns total 0 with an empty page and no error, for all
parameter values, while both get-by-id endpoints and the seed endpoint
fail with the configuration error `HTTPException(500)`. -/
theorem c4_unavailable_store_asymmetry :
    ∀ (q category specialty cuid cdid : Option String) (user_id id : String)
      (lim skp : Int),
      list_medicines none q category lim skp = .ok ⟨0, []⟩
      ∧ list_doctors none q specialty lim skp = .ok ⟨0, []⟩
      ∧ list_prescriptions none user_id lim skp = .ok ⟨0, []⟩
      ∧ list_consultations none cuid cdid lim skp = .ok ⟨0, []⟩
      ∧ list_orders none user_id lim skp = .ok ⟨0, []⟩
      ∧ get_medicine none id = (.error ⟨500, "Database not configured"⟩, 0)
      ∧ get_doctor none id = (.error ⟨500, "Database not configured"⟩, 0)
      ∧ seed_basic none = .error ⟨500, "Database not configured"⟩ := by
  intros
  exact ⟨rfl, rfl, rfl, rfl, rfl, rfl, rfl, rfl⟩

/-- C1: the free-text `q` is spliced verbatim into the regex condition
(`medFilter`/`docFilter` keep the pattern unescaped), so a `q` holding
the metacharacter `.` matches the medicine named "abc" although "a.c"
is not a literal case-insensitive substring of "abc" — and the whole
`GET /api/medicines?q=a.c` call returns that medicine.  Escaping the
pattern first (as the claim requires) would reject the match. -/
theorem c1_q_not_escaped_regex_injection :
    medFilter (some "a.c") none = [("name", Cond.regexI "a.c")]
    ∧ docFilter (some "a.c") none = [("name", Cond.regexI "a.c")]
    ∧ matchesFilter (medFilter (some "a.c") none) [("name", Value.vStr "abc")] = true
    ∧ isSubstrCI "a.c" "abc" = false
    ∧ list_medicines (some abcStore) (some "a.c") none 50 0
        = .ok ⟨1, [[("name", .vStr "abc"), ("id", .vStr oid1)]]⟩
    ∧ escapeRegex "a.c" = "a\\.c"
    ∧ matchesFilter [("name", Cond.regexI (escapeRegex "a.c"))] [("name", Value.vStr "abc")] = false :=
  ⟨rfl, rfl, by decide, by decide, rfl, by decide, by decide⟩

/-- C2 counterexample: applying `to_public` twice is not the same as
applying it once.  Normalizing a stored document with only the `_id`
field yields the already-normalized document holding only `id`;
normalizing that again raises `KeyError` (the `doc.pop` of the missing
`_id`), so the second application fails instead of being a no-op. -/
theorem c2_counterexample_not_idempotent :
    to_public (some [("_id", Value.vOid "507f1f77bcf86cd799439011")])
      = .ok (some [("id", Value.vStr "507f1f77bcf86cd799439011")])
    ∧ to_public (some [("id", Value.vStr "507f1f77bcf86cd799439011")])
      = .error "KeyError: _id"
    ∧ Except.bind (to_public (some [("_id", Value.vOid "507f1f77bcf86cd799439011")])) to_public
      ≠ to_public (some [("_id", Value.vOid "507f1f77bcf86cd799439011")]) := by
  refine ⟨rfl, rfl, ?_⟩
  intro h
  exact Except.noConfusion h

/-- C2 amended: `to_public` is idempotent only at falsy inputs — for an
absent (`None`) or empty document it is a no-op and composing it with
itself equals one application — while on any non-empty document with no
`_id` field (in particular any non-empty already-normalized document)
it raises `KeyError` instead of being a no-op. -/
theorem c2_amended_idempotent_only_on_falsy :
    (∀ d : Option Doc, d = none ∨ d = some [] →
        to_public d = .ok d ∧ Except.bind (to_public d) to_public = to_public d)
    ∧ (∀ d : Doc, d ≠ [] → getField d "_id" = none →
        to_public (some d) = .error "KeyError: _id") := by
  constructor
  · rintro d (rfl | rfl) <;> exact ⟨rfl, rfl⟩
  · intro d hne hid
    have hpop := popField_eq_none d "_id" hid
    have hempty : d.isEmpty = false := by
      cases d with
      | nil => exact absurd rfl hne
      | cons p rest => rfl
    simp [to_public, to_publicD, hempty, hpop, Except.map]

/-- Closed instantiation of `c2_amended_idempotent_only_on_falsy`. -/
theorem c2_amended_witness :
    (to_public (some []) = .ok (some [])
      ∧ Except.bind (to_public (some [])) to_public = to_public (some []))
    ∧ to_public (some [("id", Value.vStr "x")]) = .error "KeyError: _id" :=
  ⟨c2_amended_idempotent_only_on_falsy.1 (some []) (Or.inr rfl),
   c2_amended_idempotent_only_on_falsy.2 [("id", Value.vStr "x")]
     (by simp) rfl⟩

/-- C3 counterexample: a get-by-id call with an id that is not a valid
ObjectId encoding does leave the store untouched (zero queries), but it
fails with HTTP 500 — the `bson.errors.InvalidId` raised by
`ObjectId(id)` is not caught by the handler, and an unhandled exception
surfaces as a server error, not the claimed 4xx client error. -/
theorem c3_counterexample_invalid_id_is_500 :
    get_medicine (some oneMedStore) "not-a-valid-oid"
      = (.error ⟨500, "bson.errors.InvalidId"⟩, 0)
    ∧ ¬(400 ≤ (500 : Nat) ∧ (500 : Nat) < 500) := by
  refine ⟨rfl, ?_⟩
  omega

/-- C3 amended: for every id string that is not a valid ObjectId
encoding, both get-by-id endpoints fail with HTTP 500 (the unhandled
identifier-format exception) and perform no store query — the store
state is never consulted. -/
theorem c3_amended_invalid_id_500_no_query :
    ∀ (s : Store) (id : String), parseOid id = none →
      get_medicine (some s) id = (.error ⟨500, "bson.errors.InvalidId"⟩, 0)
      ∧ get_doctor (some s) id = (.error ⟨500, "bson.errors.InvalidId"⟩, 0) := by
  intro s id h
  constructor <;> simp [get_medicine, get_doctor, get_by_id, h]

/-- Closed instantiation of `c3_amended_invalid_id_500_no_query`. -/
theorem c3_amended_witness :
    get_medicine (some oneMedStore) "bogus-id"
      = (.error ⟨500, "bson.errors.InvalidId"⟩, 0)
    ∧ get_doctor (some oneMedStore) "bogus-id"
      = (.error ⟨500, "bson.errors.InvalidId"⟩, 0) :=
  c3_amended_invalid_id_500_no_query oneMedStore "bogus-id" rfl

/-- Bounds for a normalized page: its length never exceeds the
unpaginated match count, nor a positive limit. -/
theorem page_items_bounds (coll : List Doc) (filt : Filt) (lim skp : Int)
    (page items : List Doc) (hp : mongoPage coll filt skp lim = .ok page)
    (hm : mapToPublic page = .ok items) :
    items.length ≤ countDocs coll filt ∧ (1 ≤ lim → (items.length : Int) ≤ lim) := by
  have hb := mongoPage_bounds coll filt skp lim page hp
  have hl := mapToPublic_length page items hm
  refine ⟨by omega, fun h => ?_⟩
  have := hb.2 h
  omega

/-- C5 counterexample: the endpoints accept `limit = 0`, and the store
driver treats a zero limit as "no limit", so a list call with
`limit = 0` over a one-document store returns one item — violating
`items.length <= limit` for an accepted parameter value.  (The
`items.length <= total` half is not violated.) -/
theorem c5_counterexample_limit_zero :
    list_medicines (some oneMedStore) none none 0 0
      = .ok ⟨1, [[("name", .vStr "Paracetamol"), ("category", .vStr "Pain Relief"),
                  ("id", .vStr oid1)]]⟩
    ∧ ¬((1 : Int) ≤ 0) := by
  refine ⟨rfl, ?_⟩
  omega

/-- C5 amended: for every list call that returns a page,
`items.length <= total` holds, and `items.length <= limit` holds
whenever the limit is positive (`limit = 0` means "no limit" in the
store driver, and a negative skip makes the call fail instead of
returning a page). -/
theorem c5_amended_page_bounded :
    ∀ (s : Store) (q category specialty cuid cdid : Option String) (user_id : String)
      (lim skp : Int) (total : Nat) (items : List Doc),
      (list_medicines (some s) q category lim skp = .ok ⟨total, items⟩ →
          items.length ≤ total ∧ (1 ≤ lim → (items.length : Int) ≤ lim))
      ∧ (list_doctors (some s) q specialty lim skp = .ok ⟨total, items⟩ →
          items.length ≤ total ∧ (1 ≤ lim → (items.length : Int) ≤ lim))
      ∧ (list_prescriptions (some s) user_id lim skp = .ok ⟨total, items⟩ →
          items.length ≤ total ∧ (1 ≤ lim → (items.length : Int) ≤ lim))
      ∧ (list_consultations (some s) cuid cdid lim skp = .ok ⟨total, items⟩ →
          items.length ≤ total ∧ (1 ≤ lim → (items.length : Int) ≤ lim))
      ∧ (list_orders (some s) user_id lim skp = .ok ⟨total, items⟩ →
          items.length ≤ total ∧ (1 ≤ lim → (items.length : Int) ≤ lim)) := by
  intro s q category specialty cuid cdid user_id lim skp total items
  refine ⟨?_, ?_, ?_, ?_, ?_⟩ <;>
  · intro h
    simp only [list_medicines, list_doctors, list_prescriptions, list_consultations,
      list_orders] at h
    split at h
    next e heq => exact absurd h (by simp)
    next page heq =>
      split at h
      next e heq2 => exact absurd h (by simp)
      next its heq2 =>
        simp only [Except.ok.injEq, Paginated.mk.injEq] at h
        obtain ⟨ht, hi⟩ := h
        subst ht
        subst hi
        exact page_items_bounds _ _ _ _ _ _ heq heq2

/-- Closed instantiation of `c5_amended_page_bounded`. -/
theorem c5_amended_witness :
    ([[("name", Value.vStr "Paracetamol"), ("category", Value.vStr "Pain Relief"),
       ("id", Value.vStr oid1)]] : List Doc).length ≤ 1
    ∧ (1 ≤ (50 : Int) →
        ((([[("name", Value.vStr "Paracetamol"), ("category", Value.vStr "Pain Relief"),
            ("id", Value.vStr oid1)]] : List Doc).length : Int) ≤ 50)) :=
  (c5_amended_page_bounded oneMedStore none none none none none "" 50 0 1
      [[("name", Value.vStr "Paracetamol"), ("category", Value.vStr "Pain Relief"),
        ("id", Value.vStr oid1)]]).1 rfl

/-- Absent or empty `q` and `category` build the empty medicine filter. -/
theorem medFilter_empty (q category : Option String)
    (hq : q = none ∨ q = some "") (hc : category = none ∨ category = some "") :
    medFilter q category = [] := by
  rcases hq with rfl | rfl <;> rcases hc with rfl | rfl <;> rfl

/-- Absent or empty `q` and `specialty` build the empty doctor filter. -/
theorem docFilter_empty (q specialty : Option String)
    (hq : q = none ∨ q = some "") (hs : specialty = none ∨ specialty = some "") :
    docFilter q specialty = [] := by
  rcases hq with rfl | rfl <;> rcases hs with rfl | rfl <;> rfl

/-- Absent or empty `user_id` and `doctor_id` build the empty
consultation filter. -/
theorem consultFilter_empty (user_id doctor_id : Option String)
    (hu : user_id = none ∨ user_id = some "")
    (hd : doctor_id = none ∨ doctor_id = some "") :
    consultFilter user_id doctor_id = [] := by
  rcases hu with rfl | rfl <;> rcases hd with rfl | rfl <;> rfl

/-- C7 counterexample: on `GET /api/prescriptions` every optional
filter parameter is (vacuously) absent, yet the built filter is not
open: with the required `user_id` passed as the empty string, a store
holding two prescriptions returns total 1 — the document with
`user_id = "u1"` is excluded and total differs from the collection
count. -/
theorem c7_counterexample_required_param_constrains :
    list_prescriptions (some twoUserStore) "" 50 0
      = .ok ⟨1, [[("user_id", .vStr ""), ("id", .vStr oid2)]]⟩
    ∧ twoUserStore.prescription.length = 2
    ∧ (1 : Nat) ≠ 2 := by
  refine ⟨rfl, rfl, ?_⟩
  omega

/-- C7 amended: on the list endpoints whose filter parameters are all
optional (medicines, doctors, consultations), a call with every filter
parameter absent or empty builds the empty filter, which constrains
nothing: every document matches it, and the returned total is the full
collection count.  The prescriptions and orders endpoints apply their
required `user_id` even when empty, so their filter is never open. -/
theorem c7_amended_open_filter :
    ∀ (s : Store) (q category specialty cuid cdid : Option String)
      (lim skp : Int) (total : Nat) (items : List Doc) (d : Doc),
      matchesFilter [] d = true
      ∧ ((q = none ∨ q = some "") → (category = none ∨ category = some "") →
          medFilter q category = []
          ∧ (list_medicines (some s) q category lim skp = .ok ⟨total, items⟩ →
              total = s.medicine.length))
      ∧ ((q = none ∨ q = some "") → (specialty = none ∨ specialty = some "") →
          docFilter q specialty = []
          ∧ (list_doctors (some s) q specialty lim skp = .ok ⟨total, items⟩ →
              total = s.doctor.length))
      ∧ ((cuid = none ∨ cuid = some "") → (cdid = none ∨ cdid = some "") →
          consultFilter cuid cdid = []
          ∧ (list_consultations (some s) cuid cdid lim skp = .ok ⟨total, items⟩ →
              total = s.consultation.length)) := by
  intro s q category specialty cuid cdid lim skp total items d
  refine ⟨matchesFilter_nil d, ?_, ?_, ?_⟩
  · intro hq hc
    have hf := medFilter_empty q category hq hc
    refine ⟨hf, fun h => ?_⟩
    simp only [list_medicines, hf] at h
    split at h
    next e heq => exact absurd h (by simp)
    next page heq =>
      split at h
      next e heq2 => exact absurd h (by simp)
      next its heq2 =>
        simp only [Except.ok.injEq, Paginated.mk.injEq] at h
        obtain ⟨ht, hi⟩ := h
        rw [← ht, countDocs_nil]
  · intro hq hs2
    have hf := docFilter_empty q specialty hq hs2
    refine ⟨hf, fun h => ?_⟩
    simp only [list_doctors, hf] at h
    split at h
    next e heq => exact absurd h (by simp)
    next page heq =>
      split at h
      next e heq2 => exact absurd h (by simp)
      next its heq2 =>
        simp only [Except.ok.injEq, Paginated.mk.injEq] at h
        obtain ⟨ht, hi⟩ := h
        rw [← ht, countDocs_nil]
  · intro hu hd
    have hf := consultFilter_empty cuid cdid hu hd
    refine ⟨hf, fun h => ?_⟩
    simp only [list_consultations, hf] at h
    split at h
    next e heq => exact absurd h (by simp)
    next page heq =>
      split at h
      next e heq2 => exact absurd h (by simp)
      next its heq2 =>
        simp only [Except.ok.injEq, Paginated.mk.injEq] at h
        obtain ⟨ht, hi⟩ := h
        rw [← ht, countDocs_nil]

/-- Closed instantiation of `c7_amended_open_filter`. -/
theorem c7_amended_witness :
    medFilter none (some "") = [] ∧ (1 : Nat) = oneMedStore.medicine.length :=
  ⟨((c7_amended_open_filter oneMedStore none (some "") none none none 50 0 1
      [[("name", Value.vStr "Paracetamol"), ("category", Value.vStr "Pain Relief"),
        ("id", Value.vStr oid1)]] []).2.1 (Or.inl rfl) (Or.inr rfl)).1,
   ((c7_amended_open_filter oneMedStore none (some "") none none none 50 0 1
      [[("name", Value.vStr "Paracetamol"), ("category", Value.vStr "Pain Relief"),
        ("id", Value.vStr oid1)]] []).2.1 (Or.inl rfl) (Or.inr rfl)).2 rfl⟩

/-- The medicine-seeding step of `seed_basic` (src/main.py:200-204). -/
def seedStep1 (s : Store) : Store :=
  if countDocs s.medicine [] = 0
    then setColl s .medicine (s.medicine ++ seedMedicines) else s

/-- The whole store transformation `seed_basic` performs
(src/main.py:200-209): seed medicines if none, then doctors if none. -/
def seedStore (s : Store) : Store :=
  let s1 := seedStep1 s
  if countDocs s1.doctor [] = 0
    then setColl s1 .doctor (s1.doctor ++ seedDoctors) else s1

/-- `seed_basic` on a configured store succeeds with the seeded store. -/
theorem seed_basic_eq (s : Store) :
    seed_basic (some s)
      = .ok (seedStore s, "Seeded demo data (if collections were empty)") := rfl

/-- Seeding medicines never touches the doctor collection. -/
theorem seedStep1_doctor (s : Store) : (seedStep1 s).doctor = s.doctor := by
  unfold seedStep1
  by_cases h : countDocs s.medicine [] = 0 <;> simp [h, setColl]

/-- A non-empty medicine collection is left alone by the first step. -/
theorem seedStep1_of_ne (s : Store) (h : s.medicine ≠ []) : seedStep1 s = s := by
  unfold seedStep1
  rw [if_neg]
  rw [countDocs_nil]
  simpa using h

/-- After the first step the medicine collection is non-empty. -/
theorem seedStep1_medicine_ne (s : Store) : (seedStep1 s).medicine ≠ [] := by
  unfold seedStep1
  by_cases h : countDocs s.medicine [] = 0
  · rw [countDocs_nil] at h
    have he : s.medicine = [] := List.length_eq_zero.mp h
    simp [countDocs_nil, h, setColl, he, seedMedicines]
  · rw [if_neg h]
    rw [countDocs_nil] at h
    simpa using h

/-- Seeding doctors never touches the medicine collection. -/
theorem seedStore_medicine_eq_step1 (s : Store) :
    (seedStore s).medicine = (seedStep1 s).medicine := by
  unfold seedStore
  by_cases h : countDocs (seedStep1 s).doctor [] = 0 <;> simp [h, setColl]

/-- Seeding a store with a non-empty medicine collection inserts no
medicine documents. -/
theorem seedStore_medicine_of_ne (s : Store) (h : s.medicine ≠ []) :
    (seedStore s).medicine = s.medicine := by
  rw [seedStore_medicine_eq_step1, seedStep1_of_ne s h]

/-- After seeding, the medicine collection is non-empty. -/
theorem seedStore_medicine_ne (s : Store) : (seedStore s).medicine ≠ [] := by
  rw [seedStore_medicine_eq_step1]
  exact seedStep1_medicine_ne s

/-- After seeding, the doctor collection is non-empty. -/
theorem seedStore_doctor_ne (s : Store) : (seedStore s).doctor ≠ [] := by
  unfold seedStore
  by_cases h : countDocs (seedStep1 s).doctor [] = 0
  · rw [countDocs_nil] at h
    have he : (seedStep1 s).doctor = [] := List.length_eq_zero.mp h
    simp [countDocs_nil, h, setColl, he, seedDoctors]
  · rw [if_neg h]
    rw [countDocs_nil] at h
    simpa using h

/-- Seeding twice equals seeding once. -/
theorem seedStore_idem (s : Store) : seedStore (seedStore s) = seedStore s := by
  have h1 : seedStep1 (seedStore s) = seedStore s :=
    seedStep1_of_ne _ (seedStore_medicine_ne s)
  have h2 : countDocs (seedStore s).doctor [] ≠ 0 := by
    rw [countDocs_nil]
    simpa using seedStore_doctor_ne s
  calc seedStore (seedStore s)
      = if countDocs (seedStep1 (seedStore s)).doctor [] = 0
          then setColl (seedStep1 (seedStore s)) .doctor
            ((seedStep1 (seedStore s)).doctor ++ seedDoctors)
          else seedStep1 (seedStore s) := rfl
    _ = seedStore s := by rw [h1, if_neg h2]

/-- C9: the seed operation is idempotent on a populated store — with a
non-empty medicine collection `POST /api/seed` succeeds inserting no
medicine documents, and running seed on the result of any successful
seed changes nothing, so two seeds in a row leave exactly the state
after the first. -/
theorem c9_seed_idempotent :
    ∀ s : Store,
      (s.medicine ≠ [] →
        ∃ s2 m, seed_basic (some s) = .ok (s2, m) ∧ s2.medicine = s.medicine)
      ∧ (∀ s1 m1, seed_basic (some s) = .ok (s1, m1) →
          seed_basic (some s1) = .ok (s1, m1)) := by
  intro s
  constructor
  · intro hne
    exact ⟨seedStore s, _, seed_basic_eq s, seedStore_medicine_of_ne s hne⟩
  · intro s1 m1 h
    rw [seed_basic_eq] at h
    have h2 := Except.ok.inj h
    have hs1 : seedStore s = s1 := congrArg Prod.fst h2
    have hm1 : "Seeded demo data (if collections were empty)" = m1 :=
      congrArg Prod.snd h2
    rw [seed_basic_eq, ← hs1, ← hm1, seedStore_idem]

/-- Closed instantiation of `c9_seed_idempotent`. -/
theorem c9_seed_idempotent_witness :
    (∃ s2 m, seed_basic (some oneMedStore) = .ok (s2, m)
        ∧ s2.medicine = oneMedStore.medicine)
    ∧ seed_basic (some { oneMedStore with doctor := seedDoctors })
        = .ok ({ oneMedStore with doctor := seedDoctors },
               "Seeded demo data (if collections were empty)") :=
  ⟨(c9_seed_idempotent oneMedStore).1 (by simp [oneMedStore]),
   (c9_seed_idempotent oneMedStore).2
     { oneMedStore with doctor := seedDoctors }
     "Seeded demo data (if collections were empty)" rfl⟩

/-- The `user_id` filter matches a document exactly when its `user_id`
field holds exactly that string. -/
theorem matchesFilter_userId (u : String) (d : Doc) :
    matchesFilter (userIdFilter u) d
      = decide (getField d "user_id" = some (Value.vStr u)) := by
  simp only [matchesFilter, userIdFilter, List.all_cons, List.all_nil,
    Bool.and_true, matchesCond]
  cases h : getField d "user_id" with
  | none => simp
  | some v => simp

/-- Normalization only renames `_id` to `id`: every other field keeps
its value. -/
theorem to_publicD_preserves_ne (x y : Doc) (k : String)
    (hk1 : k ≠ "_id") (hk2 : k ≠ "id") (h : to_publicD x = .ok y) :
    getField y k = getField x k := by
  unfold to_publicD at h
  by_cases he : x.isEmpty
  · rw [if_pos he] at h
    cases h
    rfl
  · rw [if_neg he] at h
    cases hp : popField x "_id" with
    | none => rw [hp] at h; exact absurd h (by simp)
    | some pr =>
        rw [hp] at h
        cases h
        rw [getField_setField_ne _ _ _ _ hk2]
        exact getField_popField_ne x "_id" k pr.1 pr.2 (by rw [hp]) hk1

/-- C10: on `GET /api/prescriptions` and `GET /api/orders` the required
`user_id` is applied as an exact-equality constraint even when it is
the empty string: the built filter matches a document exactly when its
`user_id` field equals `""` (so a document with `user_id = "u1"` is
excluded, unlike with the optional parameters that are dropped when
empty), the returned total counts exactly the documents whose
`user_id` equals `""`, and every returned item has `user_id = ""`. -/
theorem c10_required_user_id_always_applied :
    ∀ (s : Store) (lim skp : Int) (total : Nat) (items : List Doc) (d : Doc),
      userIdFilter "" = [("user_id", Cond.eqv (Value.vStr ""))]
      ∧ (matchesFilter (userIdFilter "") d
          = decide (getField d "user_id" = some (Value.vStr "")))
      ∧ matchesFilter (userIdFilter "") [("user_id", Value.vStr "u1")] = false
      ∧ (list_prescriptions (some s) "" lim skp = .ok ⟨total, items⟩ →
          total = (s.prescription.filter
            (fun x => decide (getField x "user_id" = some (Value.vStr "")))).length
          ∧ ∀ x ∈ items, getField x "user_id" = some (Value.vStr ""))
      ∧ (list_orders (some s) "" lim skp = .ok ⟨total, items⟩ →
          total = (s.order.filter
            (fun x => decide (getField x "user_id" = some (Value.vStr "")))).length
          ∧ ∀ x ∈ items, getField x "user_id" = some (Value.vStr "")) := by
  intro s lim skp total items d
  refine ⟨rfl, matchesFilter_userId "" d, by decide, ?_, ?_⟩ <;>
  · intro h
    simp only [list_prescriptions, list_orders] at h
    split at h
    next e heq => exact absurd h (by simp)
    next page heq =>
      split at h
      next e heq2 => exact absurd h (by simp)
      next its heq2 =>
        simp only [Except.ok.injEq, Paginated.mk.injEq] at h
        obtain ⟨ht, hi⟩ := h
        subst hi
        constructor
        · rw [← ht]
          exact congrArg List.length
            (List.filter_congr (fun x _ => matchesFilter_userId "" x))
        · intro x hx
          obtain ⟨orig, horig, hpub⟩ := mapToPublic_mem page its heq2 x hx
          have hmatch := mongoPage_matches _ _ _ _ _ heq orig horig
          rw [matchesFilter_userId] at hmatch
          rw [to_publicD_preserves_ne orig x "user_id" (by decide) (by decide) hpub]
          exact of_decide_eq_true hmatch

/-- Closed instantiation of `c10_required_user_id_always_applied`. -/
theorem c10_witness :
    ((1 : Nat) = (twoUserStore.prescription.filter
        (fun x => decide (getField x "user_id" = some (Value.vStr "")))).length)
    ∧ ∀ x ∈ ([[("user_id", Value.vStr ""), ("id", Value.vStr oid2)]] : List Doc),
        getField x "user_id" = some (Value.vStr "") :=
  (c10_required_user_id_always_applied twoUserStore 50 0 1
      [[("user_id", Value.vStr ""), ("id", Value.vStr oid2)]] []).2.2.2.1 rfl

/-- The `_id` equality filter matches a document exactly when its `_id`
field holds exactly that value. -/
theorem matchesFilter_id_eq (v : Value) (x : Doc) :
    matchesFilter [("_id", Cond.eqv v)] x
      = decide (getField x "_id" = some v) := by
  simp only [matchesFilter, List.all_cons, List.all_nil, Bool.and_true, matchesCond]
  cases h : getField x "_id" with
  | none => simp
  | some w => simp

/-- C6: create-then-get round trip.  For any collection, inserting a
payload through `create_document` (fresh store-assigned identifier,
stamped timestamps) and looking the returned identifier up through the
get-by-id handler returns exactly the input payload plus the
server-assigned timestamps and public `id`.  Hypotheses: the fresh
ObjectId is canonical and unused in the collection, and the validated
payload carries no `id` field of its own. -/
theorem c6_create_then_get_roundtrip :
    ∀ (s : Store) (c : Coll) (payload : Doc) (freshOid : String) (now : Value)
      (msg : String),
      parseOid freshOid = some freshOid →
      (∀ x ∈ getColl s c, getField x "_id" ≠ some (Value.vOid freshOid)) →
      getField payload "id" = none →
      get_by_id (some (create_document s c payload freshOid now).2) c msg
          (create_document s c payload freshOid now).1
        = (.ok (payload ++ [("created_at", now), ("updated_at", now),
                            ("id", Value.vStr freshOid)]), 1) := by
  intro s c payload freshOid now msg h1 h2 hpid
  have hfind : findOne
      (getColl s c ++ [("_id", Value.vOid freshOid)
          :: (payload ++ [("created_at", now), ("updated_at", now)])])
      [("_id", Cond.eqv (Value.vOid freshOid))]
      = some (("_id", Value.vOid freshOid)
          :: (payload ++ [("created_at", now), ("updated_at", now)])) := by
    unfold findOne
    apply find?_append_of_all_false
    · intro x hx
      rw [matchesFilter_id_eq]
      exact decide_eq_false (h2 x hx)
    · rw [matchesFilter_id_eq]
      simp [getField]
  have hnone : getField (payload ++ [("created_at", now), ("updated_at", now)]) "id"
      = none := by
    rw [getField_append_none _ _ _ hpid]
    rfl
  simp only [create_document, get_by_id, getColl_setColl, h1, hfind]
  simp only [List.isEmpty, to_publicD, popField, if_pos, reduceIte]
  rw [setField_of_getField_none _ _ _ hnone]
  simp [List.append_assoc, vToStr]

/-- Closed instantiation of `c6_create_then_get_roundtrip`. -/
theorem c6_roundtrip_witness :
    get_by_id (some (create_document oneMedStore .prescription
        [("user_id", Value.vStr "u1")] oid2 (Value.vStr "2026-01-01T00:00:00")).2)
      .prescription "Prescription not found"
      (create_document oneMedStore .prescription
        [("user_id", Value.vStr "u1")] oid2 (Value.vStr "2026-01-01T00:00:00")).1
      = (.ok [("user_id", Value.vStr "u1"),
              ("created_at", Value.vStr "2026-01-01T00:00:00"),
              ("updated_at", Value.vStr "2026-01-01T00:00:00"),
              ("id", Value.vStr oid2)], 1) :=
  c6_create_then_get_roundtrip oneMedStore .prescription
    [("user_id", Value.vStr "u1")] oid2 (Value.vStr "2026-01-01T00:00:00")
    "Prescription not found" (by decide) (by simp [getColl, oneMedStore]) rfl
